import Mathlib

/-!
Shallow embedding of the LEGAL_BOT pipeline driver (src/new_script.py).

The driver orchestrates three external collaborators (PDF extraction,
multimodal embedding, Vespa index/search).  Collaborator behaviour is
abstracted as a record of `Except`-returning functions; the driver
functions are translated directly from the Python source and, besides
their result, produce an explicit trace of events (log lines and
collaborator calls) so that logging and call-pattern properties can be
stated.
-/

namespace LegalBot

/-- A PDF descriptor, `{title, url}` (src/config.SAMPLE_PDFS entries). -/
structure Pdf where
  title : String
  url : String
deriving DecidableEq, Repr

/-- A processed document: the descriptor fields (the Python code copies
the descriptor dict) enriched with `images`, `texts`, `embeddings`
(src/new_script.py, `process_single_pdf`). -/
structure ProcessedPdf (Img Txt Vec : Type) where
  title : String
  url : String
  images : List Img
  texts : List Txt
  embeddings : List Vec
deriving DecidableEq, Repr

/-- One observable event of a run: a log line or a collaborator call. -/
inductive Event (Img Txt Vec VDoc : Type) where
  | logInfo (msg : String)
  | logError (msg : String)
  | initHandlers
  | callDeploy
  | callGetPdfImages (url : String)
  | callGenerateEmbeddings (images : List Img)
  | callGenerateTextEmbeddings (texts : List String)
  | callPrepareDocument (doc : ProcessedPdf Img Txt Vec)
  | callIndexDocuments (docs : List VDoc)
  | callSearch (query : String) (embedding : Vec)
deriving DecidableEq, Repr

/-- The external collaborators (PDFProcessor, ModelHandler, VespaHandler,
utils.verify_poppler_setup), abstracted as oracles.  A raised Python
exception is modelled as `Except.error` with the exception message. -/
structure Collab (Img Txt Vec VDoc Res : Type) where
  verifyPopplerSetup : Bool
  deploy : Except String Unit
  getPdfImages : String → Except String (List Img × List Txt)
  generateEmbeddings : List Img → Except String (List Vec)
  generateTextEmbeddings : List String → Except String (List Vec)
  prepareDocument : ProcessedPdf Img Txt Vec → Except String VDoc
  indexDocuments : List VDoc → Except String Unit
  search : String → Vec → Except String Res
  showResults : Res → String

variable {Img Txt Vec VDoc Res : Type}

/-- `Event.isIndexingOrSearchCall ev` holds exactly for calls to the
index/search collaborator methods `prepare_document`, `index_documents`
and `search`. -/
def Event.isIndexingOrSearchCall : Event Img Txt Vec VDoc → Bool
  | .callPrepareDocument _ => true
  | .callIndexDocuments _ => true
  | .callSearch _ _ => true
  | _ => false

/-- `Event.isCollabCall ev` holds for every event that is not a pure log
line: handler initialization and every collaborator call. -/
def Event.isCollabCall : Event Img Txt Vec VDoc → Bool
  | .logInfo _ => false
  | .logError _ => false
  | _ => true

/-- `Event.isIndexDocumentsCall ev` holds exactly for calls to the index
collaborator method `index_documents`. -/
def Event.isIndexDocumentsCall : Event Img Txt Vec VDoc → Bool
  | .callIndexDocuments _ => true
  | _ => false

/-- `Event.isSearchCall ev` holds exactly for calls to the index
collaborator method `search`. -/
def Event.isSearchCall : Event Img Txt Vec VDoc → Bool
  | .callSearch _ _ => true
  | _ => false

/-- `process_single_pdf` (src/new_script.py lines 14-39): extraction, then
embedding, then the dict copy/merge; any raised error is logged with the
item title and re-raised. -/
def process_single_pdf (c : Collab Img Txt Vec VDoc Res) (pdf : Pdf) :
    Except String (ProcessedPdf Img Txt Vec) × List (Event Img Txt Vec VDoc) :=
  match c.getPdfImages pdf.url with
  | Except.error e =>
      (Except.error e,
       [Event.logInfo ("Processing PDF: " ++ pdf.title),
        Event.callGetPdfImages pdf.url,
        Event.logError ("Error processing PDF " ++ pdf.title ++ ": " ++ e)])
  | Except.ok (images, texts) =>
    match c.generateEmbeddings images with
    | Except.error e =>
        (Except.error e,
         [Event.logInfo ("Processing PDF: " ++ pdf.title),
          Event.callGetPdfImages pdf.url,
          Event.logInfo ("Extracted " ++ toString images.length ++ " pages"),
          Event.callGenerateEmbeddings images,
          Event.logError ("Error processing PDF " ++ pdf.title ++ ": " ++ e)])
    | Except.ok embeddings =>
        (Except.ok { title := pdf.title, url := pdf.url,
                     images := images, texts := texts, embeddings := embeddings },
         [Event.logInfo ("Processing PDF: " ++ pdf.title),
          Event.callGetPdfImages pdf.url,
          Event.logInfo ("Extracted " ++ toString images.length ++ " pages"),
          Event.callGenerateEmbeddings images,
          Event.logInfo "Generated embeddings for all pages"])

/-- The driver loop of `main` (src/new_script.py lines 89-97): each
descriptor is processed by `process_single_pdf`; a failure is logged and
the loop continues with the next descriptor. -/
def processPdfs (c : Collab Img Txt Vec VDoc Res) :
    List Pdf → List (ProcessedPdf Img Txt Vec) × List (Event Img Txt Vec VDoc)
  | [] => ([], [])
  | pdf :: rest =>
    match (process_single_pdf c pdf).1 with
    | Except.ok doc =>
        (doc :: (processPdfs c rest).1,
         (process_single_pdf c pdf).2 ++ (processPdfs c rest).2)
    | Except.error e =>
        ((processPdfs c rest).1,
         (process_single_pdf c pdf).2 ++
           Event.logError ("Failed to process PDF " ++ pdf.title ++ ": " ++ e) ::
             (processPdfs c rest).2)

/-- One iteration of the indexing loop of `index_documents`
(src/new_script.py lines 45-52): prepare the document, submit the
singleton list `[vespa_doc]`, log success; a raised error is logged with
the item title and re-raised. -/
def indexStep (c : Collab Img Txt Vec VDoc Res) (doc : ProcessedPdf Img Txt Vec) :
    Except String Unit × List (Event Img Txt Vec VDoc) :=
  match c.prepareDocument doc with
  | Except.error e =>
      (Except.error e,
       [Event.callPrepareDocument doc,
        Event.logError ("Error indexing PDF " ++ doc.title ++ ": " ++ e)])
  | Except.ok vdoc =>
    match c.indexDocuments [vdoc] with
    | Except.error e =>
        (Except.error e,
         [Event.callPrepareDocument doc,
          Event.callIndexDocuments [vdoc],
          Event.logError ("Error indexing PDF " ++ doc.title ++ ": " ++ e)])
    | Except.ok _ =>
        (Except.ok (),
         [Event.callPrepareDocument doc,
          Event.callIndexDocuments [vdoc],
          Event.logInfo ("Successfully indexed: " ++ doc.title)])

/-- The `for` loop inside `index_documents`: iterate `indexStep`; a
re-raised error exits the loop, so documents after the failing one are
not touched. -/
def indexLoop (c : Collab Img Txt Vec VDoc Res) :
    List (ProcessedPdf Img Txt Vec) → Except String Unit × List (Event Img Txt Vec VDoc)
  | [] => (Except.ok (), [])
  | doc :: rest =>
    match (indexStep c doc).1 with
    | Except.error e => (Except.error e, (indexStep c doc).2)
    | Except.ok _ =>
        ((indexLoop c rest).1, (indexStep c doc).2 ++ (indexLoop c rest).2)

/-- `index_documents` (src/new_script.py lines 41-52): log the phase
banner, then run the indexing loop. -/
def index_documents (c : Collab Img Txt Vec VDoc Res)
    (docs : List (ProcessedPdf Img Txt Vec)) :
    Except String Unit × List (Event Img Txt Vec VDoc) :=
  ((indexLoop c docs).1,
   Event.logInfo "Indexing documents in Vespa..." :: (indexLoop c docs).2)

/-- The fixed demonstration query of `perform_sample_search`. -/
def sampleQuery : String := "Composition of the LoTTE benchmark"

/-- `perform_sample_search` (src/new_script.py lines 54-67): embed the
fixed query, take element `[0]` of the returned vector list (an empty
list raises an IndexError), call `search`, log the results; any raised
error is logged and re-raised. -/
def perform_sample_search (c : Collab Img Txt Vec VDoc Res) :
    Except String Unit × List (Event Img Txt Vec VDoc) :=
  match c.generateTextEmbeddings [sampleQuery] with
  | Except.error e =>
      (Except.error e,
       [Event.logInfo ("Performing sample search: " ++ sampleQuery),
        Event.callGenerateTextEmbeddings [sampleQuery],
        Event.logError ("Error during sample search: " ++ e)])
  | Except.ok vecs =>
    match vecs.head? with
    | none =>
        (Except.error "list index out of range",
         [Event.logInfo ("Performing sample search: " ++ sampleQuery),
          Event.callGenerateTextEmbeddings [sampleQuery],
          Event.logError "Error during sample search: list index out of range"])
    | some v =>
      match c.search sampleQuery v with
      | Except.error e =>
          (Except.error e,
           [Event.logInfo ("Performing sample search: " ++ sampleQuery),
            Event.callGenerateTextEmbeddings [sampleQuery],
            Event.callSearch sampleQuery v,
            Event.logError ("Error during sample search: " ++ e)])
      | Except.ok res =>
          (Except.ok (),
           [Event.logInfo ("Performing sample search: " ++ sampleQuery),
            Event.callGenerateTextEmbeddings [sampleQuery],
            Event.callSearch sampleQuery v,
            Event.logInfo ("Search results: " ++ c.showResults res)])

/-- The process outcome of a run of `main`: a normal exit with a code, or
an uncaught exception propagating out of `main`. -/
inductive Outcome where
  | exited (code : Nat)
  | raised (msg : String)
deriving DecidableEq, Repr

/-- `main` (src/new_script.py lines 69-117): Poppler precheck (exit 1 on
failure), handler initialization, Vespa deployment, the driver loop, the
zero-success check (exit 1), indexing, sample search.  The outer
`except` logs a critical error and re-raises (`Outcome.raised`); the
`finally` block logs cleanup on every path.  `exit(1)` raises
`SystemExit`, which `except Exception` does not catch. -/
def main (c : Collab Img Txt Vec VDoc Res) (samplePdfs : List Pdf) :
    Outcome × List (Event Img Txt Vec VDoc) :=
  if c.verifyPopplerSetup then
    match c.deploy with
    | Except.error e =>
        (Outcome.raised e,
         [Event.logInfo "Verifying Poppler setup...",
          Event.logInfo "Initializing handlers...", Event.initHandlers,
          Event.logInfo "Deploying Vespa application...", Event.callDeploy,
          Event.logError ("Critical error occurred: " ++ e),
          Event.logInfo "Cleaning up resources..."])
    | Except.ok _ =>
      if ((processPdfs c samplePdfs).1).isEmpty then
        (Outcome.exited 1,
         [Event.logInfo "Verifying Poppler setup...",
          Event.logInfo "Initializing handlers...", Event.initHandlers,
          Event.logInfo "Deploying Vespa application...", Event.callDeploy] ++
         (processPdfs c samplePdfs).2 ++
         [Event.logError "No PDFs were successfully processed. Exiting.",
          Event.logInfo "Cleaning up resources..."])
      else
        match (index_documents c (processPdfs c samplePdfs).1).1 with
        | Except.error e =>
            (Outcome.raised e,
             [Event.logInfo "Verifying Poppler setup...",
              Event.logInfo "Initializing handlers...", Event.initHandlers,
              Event.logInfo "Deploying Vespa application...", Event.callDeploy] ++
             (processPdfs c samplePdfs).2 ++
             (index_documents c (processPdfs c samplePdfs).1).2 ++
             [Event.logError ("Critical error occurred: " ++ e),
              Event.logInfo "Cleaning up resources..."])
        | Except.ok _ =>
          match (perform_sample_search c).1 with
          | Except.error e =>
              (Outcome.raised e,
               [Event.logInfo "Verifying Poppler setup...",
                Event.logInfo "Initializing handlers...", Event.initHandlers,
                Event.logInfo "Deploying Vespa application...", Event.callDeploy] ++
               (processPdfs c samplePdfs).2 ++
               (index_documents c (processPdfs c samplePdfs).1).2 ++
               [Event.logInfo "Successfully processed and indexed all PDFs!"] ++
               (perform_sample_search c).2 ++
               [Event.logError ("Critical error occurred: " ++ e),
                Event.logInfo "Cleaning up resources..."])
          | Except.ok _ =>
              (Outcome.exited 0,
               [Event.logInfo "Verifying Poppler setup...",
                Event.logInfo "Initializing handlers...", Event.initHandlers,
                Event.logInfo "Deploying Vespa application...", Event.callDeploy] ++
               (processPdfs c samplePdfs).2 ++
               (index_documents c (processPdfs c samplePdfs).1).2 ++
               [Event.logInfo "Successfully processed and indexed all PDFs!"] ++
               (perform_sample_search c).2 ++
               [Event.logInfo "Cleaning up resources..."])
  else
    (Outcome.exited 1,
     [Event.logInfo "Verifying Poppler setup...",
      Event.logError "Poppler setup verification failed. Please check configuration.",
      Event.logInfo "Cleaning up resources..."])

/-! ### Concrete test instances (used to evaluate the definitions) -/

/-- A test descriptor whose extraction succeeds in every bundle below. -/
def pdfA : Pdf := { title := "Doc A", url := "urlA" }

/-- A test descriptor whose extraction fails under `collabFailB`. -/
def pdfB : Pdf := { title := "Doc B", url := "bad-url" }

/-- A collaborator bundle where every call succeeds; embeddings are one
per input element. -/
def collabOk : Collab Nat String Nat Nat Nat where
  verifyPopplerSetup := true
  deploy := Except.ok ()
  getPdfImages := fun _ => Except.ok ([1, 2], ["page one", "page two"])
  generateEmbeddings := fun imgs => Except.ok imgs
  generateTextEmbeddings := fun txts => Except.ok (txts.map (fun _ => 7))
  prepareDocument := fun doc => Except.ok doc.images.length
  indexDocuments := fun _ => Except.ok ()
  search := fun _ _ => Except.ok 0
  showResults := fun r => toString r

/-- Like `collabOk`, except extraction raises on the url "bad-url". -/
def collabFailB : Collab Nat String Nat Nat Nat :=
  { collabOk with
    getPdfImages := fun u =>
      if u = "bad-url" then Except.error "boom"
      else Except.ok ([1, 2], ["page one", "page two"]) }

/-- Like `collabOk`, except the index collaborator submission raises. -/
def collabIdxFail : Collab Nat String Nat Nat Nat :=
  { collabOk with indexDocuments := fun _ => Except.error "index down" }

/-- Like `collabOk`, except document preparation raises on title "Doc B". -/
def collabPrepFailB : Collab Nat String Nat Nat Nat :=
  { collabOk with
    prepareDocument := fun doc =>
      if doc.title = "Doc B" then Except.error "bad shape"
      else Except.ok doc.images.length }

/-- Like `collabOk`, except the Poppler environment precheck fails. -/
def collabNoPoppler : Collab Nat String Nat Nat Nat :=
  { collabOk with verifyPopplerSetup := false }

/-- The processed document produced from `pdfA` under `collabOk`. -/
def docAOk : ProcessedPdf Nat String Nat :=
  { title := "Doc A", url := "urlA", images := [1, 2],
    texts := ["page one", "page two"], embeddings := [1, 2] }

/-- A processed document that `collabPrepFailB` prepares successfully. -/
def docA3 : ProcessedPdf Nat String Nat :=
  { title := "Doc A", url := "urlA", images := [1], texts := ["page one"],
    embeddings := [1] }

/-- A processed document on which `collabPrepFailB` raises. -/
def docB3 : ProcessedPdf Nat String Nat :=
  { title := "Doc B", url := "bad-url", images := [1], texts := ["page one"],
    embeddings := [1] }

/-- A processed document after `docB3` in loop order. -/
def docC3 : ProcessedPdf Nat String Nat :=
  { title := "Doc C", url := "urlC", images := [1], texts := ["page one"],
    embeddings := [1] }

/-! ### Helper lemmas about the processing phase -/

theorem process_single_pdf_ok_shape (c : Collab Img Txt Vec VDoc Res) (pdf : Pdf)
    (doc : ProcessedPdf Img Txt Vec)
    (h : (process_single_pdf c pdf).1 = Except.ok doc) :
    ∃ images texts embeddings,
      c.getPdfImages pdf.url = Except.ok (images, texts) ∧
      c.generateEmbeddings images = Except.ok embeddings ∧
      doc = ⟨pdf.title, pdf.url, images, texts, embeddings⟩ := by
  unfold process_single_pdf at h
  split at h
  · simp at h
  next images texts hg =>
    split at h
    · simp at h
    next embeddings he =>
      simp only [Except.ok.injEq] at h
      exact ⟨images, texts, embeddings, hg, he, h.symm⟩

theorem processPdfs_fst (c : Collab Img Txt Vec VDoc Res) (pdfs : List Pdf) :
    (processPdfs c pdfs).1 =
      pdfs.filterMap (fun p => ((process_single_pdf c p).1).toOption) := by
  induction pdfs with
  | nil => rfl
  | cons p rest ih =>
    rcases h : (process_single_pdf c p).1 with e | doc <;>
      simp [processPdfs, h, Except.toOption, ih]

theorem processPdfs_mem (c : Collab Img Txt Vec VDoc Res) (pdfs : List Pdf)
    (doc : ProcessedPdf Img Txt Vec) (hmem : doc ∈ (processPdfs c pdfs).1) :
    ∃ p ∈ pdfs, (process_single_pdf c p).1 = Except.ok doc := by
  rw [processPdfs_fst] at hmem
  obtain ⟨p, hp, hval⟩ := List.mem_filterMap.mp hmem
  refine ⟨p, hp, ?_⟩
  rcases h : (process_single_pdf c p).1 with e | doc2 <;>
    rw [h] at hval <;> simp [Except.toOption] at hval
  rw [hval]

theorem processPdfs_error_log (c : Collab Img Txt Vec VDoc Res) (pdfs : List Pdf)
    (p : Pdf) (e : String) (hmem : p ∈ pdfs)
    (herr : (process_single_pdf c p).1 = Except.error e) :
    Event.logError ("Failed to process PDF " ++ p.title ++ ": " ++ e) ∈
      (processPdfs c pdfs).2 := by
  induction pdfs with
  | nil => cases hmem
  | cons q rest ih =>
    rcases List.mem_cons.mp hmem with rfl | hmem2
    · simp [processPdfs, herr]
    · rcases h : (process_single_pdf c q).1 with e2 | doc <;>
        simp [processPdfs, h, ih hmem2]

theorem process_single_pdf_trace_calls (c : Collab Img Txt Vec VDoc Res) (pdf : Pdf) :
    ∀ ev ∈ (process_single_pdf c pdf).2, ev.isIndexingOrSearchCall = false := by
  intro ev hev
  unfold process_single_pdf at hev
  split at hev
  · simp at hev
    rcases hev with rfl | rfl | rfl <;> rfl
  · split at hev <;> simp at hev <;>
      rcases hev with rfl | rfl | rfl | rfl | rfl <;> rfl

theorem processPdfs_trace_calls (c : Collab Img Txt Vec VDoc Res) (pdfs : List Pdf) :
    ∀ ev ∈ (processPdfs c pdfs).2, ev.isIndexingOrSearchCall = false := by
  induction pdfs with
  | nil => intro ev hev; cases hev
  | cons p rest ih =>
    intro ev hev
    rcases h : (process_single_pdf c p).1 with e | doc <;>
      simp [processPdfs, h] at hev
    · rcases hev with hev | rfl | hev
      · exact process_single_pdf_trace_calls c p ev hev
      · rfl
      · exact ih ev hev
    · rcases hev with hev | hev
      · exact process_single_pdf_trace_calls c p ev hev
      · exact ih ev hev

/-! ### Helper lemmas about the indexing phase -/

theorem indexStep_ok_shape (c : Collab Img Txt Vec VDoc Res)
    (doc : ProcessedPdf Img Txt Vec) (h : (indexStep c doc).1 = Except.ok ()) :
    ∃ vdoc, c.prepareDocument doc = Except.ok vdoc ∧
      c.indexDocuments [vdoc] = Except.ok () ∧
      (indexStep c doc).2 =
        [Event.callPrepareDocument doc, Event.callIndexDocuments [vdoc],
         Event.logInfo ("Successfully indexed: " ++ doc.title)] := by
  unfold indexStep at h
  split at h
  · simp at h
  next vdoc hp =>
    split at h
    · simp at h
    next u hi =>
      exact ⟨vdoc, hp, hi, by simp only [indexStep, hp, hi]⟩

theorem indexStep_error_log (c : Collab Img Txt Vec VDoc Res)
    (doc : ProcessedPdf Img Txt Vec) (e : String)
    (h : (indexStep c doc).1 = Except.error e) :
    Event.logError ("Error indexing PDF " ++ doc.title ++ ": " ++ e) ∈
      (indexStep c doc).2 := by
  unfold indexStep at h ⊢
  split at h
  · simp at h
    subst h
    simp
  · split at h
    · simp at h
      subst h
      simp
    · simp at h

theorem indexStep_prepare_mem (c : Collab Img Txt Vec VDoc Res)
    (doc doc2 : ProcessedPdf Img Txt Vec)
    (h : Event.callPrepareDocument doc2 ∈ (indexStep c doc).2) : doc2 = doc := by
  unfold indexStep at h
  split at h <;> [skip; split at h] <;> simp at h <;>
    rcases h with h | h <;> simp_all

theorem indexStep_index_singleton (c : Collab Img Txt Vec VDoc Res)
    (doc : ProcessedPdf Img Txt Vec) (vds : List VDoc)
    (h : Event.callIndexDocuments vds ∈ (indexStep c doc).2) : vds.length = 1 := by
  unfold indexStep at h
  split at h <;> [skip; split at h] <;> simp at h <;>
    rcases h with h | h <;> simp_all

theorem indexLoop_prepare_mem (c : Collab Img Txt Vec VDoc Res)
    (docs : List (ProcessedPdf Img Txt Vec)) (doc : ProcessedPdf Img Txt Vec)
    (h : Event.callPrepareDocument doc ∈ (indexLoop c docs).2) : doc ∈ docs := by
  induction docs with
  | nil => cases h
  | cons d rest ih =>
    rcases hs : (indexStep c d).1 with e | u <;> simp [indexLoop, hs] at h
    · exact (indexStep_prepare_mem c d doc h) ▸ List.mem_cons_self d rest
    · rcases h with h | h
      · exact (indexStep_prepare_mem c d doc h) ▸ List.mem_cons_self d rest
      · exact List.mem_cons_of_mem d (ih h)

theorem indexLoop_index_singleton (c : Collab Img Txt Vec VDoc Res)
    (docs : List (ProcessedPdf Img Txt Vec)) (vds : List VDoc)
    (h : Event.callIndexDocuments vds ∈ (indexLoop c docs).2) : vds.length = 1 := by
  induction docs with
  | nil => cases h
  | cons d rest ih =>
    rcases hs : (indexStep c d).1 with e | u <;> simp [indexLoop, hs] at h
    · exact indexStep_index_singleton c d vds h
    · rcases h with h | h
      · exact indexStep_index_singleton c d vds h
      · exact ih h

theorem indexLoop_first_error (c : Collab Img Txt Vec VDoc Res)
    (pre : List (ProcessedPdf Img Txt Vec)) (d : ProcessedPdf Img Txt Vec)
    (post : List (ProcessedPdf Img Txt Vec)) (e : String)
    (hpre : ∀ x ∈ pre, (indexStep c x).1 = Except.ok ())
    (hd : (indexStep c d).1 = Except.error e) :
    indexLoop c (pre ++ d :: post) =
      (Except.error e,
       (pre.map (fun x => (indexStep c x).2)).flatten ++ (indexStep c d).2) := by
  induction pre with
  | nil => simp [indexLoop, hd]
  | cons q rest ih =>
    have hq : (indexStep c q).1 = Except.ok () := hpre q (List.mem_cons_self q rest)
    have ih2 := ih (fun x hx => hpre x (List.mem_cons_of_mem q hx))
    simp only [List.cons_append, indexLoop, hq, List.append_eq, ih2, List.map_cons,
      List.flatten_cons, List.append_assoc]

theorem indexLoop_ok_each (c : Collab Img Txt Vec VDoc Res)
    (docs : List (ProcessedPdf Img Txt Vec)) (h : (indexLoop c docs).1 = Except.ok ()) :
    ∀ d ∈ docs, (indexStep c d).1 = Except.ok () := by
  induction docs with
  | nil => intro d hd; cases hd
  | cons q rest ih =>
    intro d hd
    rcases hs : (indexStep c q).1 with e | u
    · rw [indexLoop, hs] at h; simp at h
    · rcases List.mem_cons.mp hd with rfl | hd2
      · rw [hs]
      · rw [indexLoop, hs] at h
        exact ih h d hd2

theorem indexLoop_ok_count (c : Collab Img Txt Vec VDoc Res)
    (docs : List (ProcessedPdf Img Txt Vec)) (h : (indexLoop c docs).1 = Except.ok ()) :
    ((indexLoop c docs).2).countP (fun ev => Event.isIndexDocumentsCall ev) =
      docs.length := by
  induction docs with
  | nil => rfl
  | cons q rest ih =>
    rcases hs : (indexStep c q).1 with e | u
    · rw [indexLoop, hs] at h; simp at h
    · have hq : (indexStep c q).1 = Except.ok () := by rw [hs]
      obtain ⟨vdoc, _, _, htr⟩ := indexStep_ok_shape c q hq
      rw [indexLoop, hs] at h ⊢
      simp only [List.countP_append, htr, ih h, List.length_cons]
      simp [List.countP_cons, Event.isIndexDocumentsCall]
      omega

/-! ### Helper lemmas about the sample-search step -/

theorem perform_sample_search_no_prepare (c : Collab Img Txt Vec VDoc Res)
    (doc : ProcessedPdf Img Txt Vec) :
    Event.callPrepareDocument doc ∉ (perform_sample_search c).2 := by
  intro h
  unfold perform_sample_search at h
  split at h <;> [simp at h; skip]
  split at h <;> [simp at h; skip]
  split at h <;> simp at h

theorem perform_sample_search_no_index (c : Collab Img Txt Vec VDoc Res)
    (vds : List VDoc) :
    Event.callIndexDocuments vds ∉ (perform_sample_search c).2 := by
  intro h
  unfold perform_sample_search at h
  split at h <;> [simp at h; skip]
  split at h <;> [simp at h; skip]
  split at h <;> simp at h

theorem perform_sample_search_invokes (c : Collab Img Txt Vec VDoc Res)
    (v : Vec) (vs : List Vec)
    (h : c.generateTextEmbeddings [sampleQuery] = Except.ok (v :: vs)) :
    Event.callGenerateTextEmbeddings [sampleQuery] ∈ (perform_sample_search c).2 ∧
      ((perform_sample_search c).2).filter (fun ev => Event.isSearchCall ev) =
        [Event.callSearch sampleQuery v] := by
  unfold perform_sample_search
  rw [h]
  simp only [List.head?]
  rcases hs : c.search sampleQuery v with e | res <;>
    simp [Event.isSearchCall]

/-! ### Helper lemmas about the whole driver run -/

theorem main_prepare_mem (c : Collab Img Txt Vec VDoc Res) (pdfs : List Pdf)
    (doc : ProcessedPdf Img Txt Vec)
    (h : Event.callPrepareDocument doc ∈ (main c pdfs).2) :
    doc ∈ (processPdfs c pdfs).1 := by
  unfold main at h
  split at h
  · split at h
    · simp at h
    · split at h
      · simp at h
        have hx := processPdfs_trace_calls c pdfs _ h
        simp [Event.isIndexingOrSearchCall] at hx
      · split at h <;> [skip; split at h] <;> simp [index_documents] at h <;>
          (try rcases h with h | h) <;> (try rcases h with h | h) <;>
          first
          | exact indexLoop_prepare_mem c _ doc h
          | exact absurd h (perform_sample_search_no_prepare c doc)
          | (have hx := processPdfs_trace_calls c pdfs _ h
             simp [Event.isIndexingOrSearchCall] at hx)
  · simp at h

theorem main_index_singleton (c : Collab Img Txt Vec VDoc Res) (pdfs : List Pdf)
    (vds : List VDoc)
    (h : Event.callIndexDocuments vds ∈ (main c pdfs).2) : vds.length = 1 := by
  unfold main at h
  split at h
  · split at h
    · simp at h
    · split at h
      · simp at h
        have hx := processPdfs_trace_calls c pdfs _ h
        simp [Event.isIndexingOrSearchCall] at hx
      · split at h <;> [skip; split at h] <;> simp [index_documents] at h <;>
          (try rcases h with h | h) <;> (try rcases h with h | h) <;>
          first
          | exact indexLoop_index_singleton c _ vds h
          | exact absurd h (perform_sample_search_no_index c vds)
          | (have hx := processPdfs_trace_calls c pdfs _ h
             simp [Event.isIndexingOrSearchCall] at hx)
  · simp at h

/-! ### Claim theorems -/

/-- C1: If extraction or embedding raises for a descriptor, the driver loop
logs the failure and skips just that descriptor, continuing with the next
one: the accumulated list is exactly the list of successful results (every
other successfully processed item is included, the failing item excluded,
and the run is never aborted), and each failing descriptor contributes a
logged error naming it. -/
theorem claim1_extraction_failure_skipped (c : Collab Img Txt Vec VDoc Res)
    (pdfs : List Pdf) :
    (processPdfs c pdfs).1 =
      pdfs.filterMap (fun p => ((process_single_pdf c p).1).toOption) ∧
    ∀ p ∈ pdfs, ∀ e, (process_single_pdf c p).1 = Except.error e →
      Event.logError ("Failed to process PDF " ++ p.title ++ ": " ++ e) ∈
        (processPdfs c pdfs).2 :=
  ⟨processPdfs_fst c pdfs, fun p hp e he => processPdfs_error_log c pdfs p e hp he⟩

/-- C1 witness: under `collabFailB`, descriptor B fails extraction while A
succeeds; the driver output is the filterMap of successes and the failure
for B is logged. -/
theorem claim1_witness :
    (processPdfs collabFailB [pdfA, pdfB]).1 =
      [pdfA, pdfB].filterMap
        (fun p => ((process_single_pdf collabFailB p).1).toOption) ∧
    Event.logError ("Failed to process PDF " ++ pdfB.title ++ ": " ++ "boom") ∈
      (processPdfs collabFailB [pdfA, pdfB]).2 :=
  ⟨(claim1_extraction_failure_skipped collabFailB [pdfA, pdfB]).1,
   (claim1_extraction_failure_skipped collabFailB [pdfA, pdfB]).2 pdfB (by decide)
     "boom" rfl⟩

/-- C4: Under the collaborator contracts (extraction returns one text per
page image, embedding returns one vector per input), every successfully
processed document has images, texts and embeddings of equal length, and
every document the driver hands to the index collaborator method
`prepare_document` satisfies that invariant. -/
theorem claim4_length_invariant (c : Collab Img Txt Vec VDoc Res) (pdfs : List Pdf)
    (hext : ∀ url imgs txts, c.getPdfImages url = Except.ok (imgs, txts) →
      imgs.length = txts.length)
    (hemb : ∀ imgs vs, c.generateEmbeddings imgs = Except.ok vs →
      vs.length = imgs.length) :
    (∀ doc ∈ (processPdfs c pdfs).1,
       doc.images.length = doc.texts.length ∧
       doc.embeddings.length = doc.images.length) ∧
    ∀ doc : ProcessedPdf Img Txt Vec,
      Event.callPrepareDocument doc ∈ (main c pdfs).2 →
      doc.images.length = doc.texts.length ∧
      doc.embeddings.length = doc.images.length := by
  have hdoc : ∀ (p : Pdf) (doc : ProcessedPdf Img Txt Vec),
      (process_single_pdf c p).1 = Except.ok doc →
      doc.images.length = doc.texts.length ∧
      doc.embeddings.length = doc.images.length := by
    intro p doc hok
    obtain ⟨imgs, txts, embs, hg, he, rfl⟩ := process_single_pdf_ok_shape c p doc hok
    exact ⟨hext p.url imgs txts hg, hemb imgs embs he⟩
  constructor
  · intro doc hmem
    obtain ⟨p, _, hok⟩ := processPdfs_mem c pdfs doc hmem
    exact hdoc p doc hok
  · intro doc hmem
    obtain ⟨p, _, hok⟩ :=
      processPdfs_mem c pdfs doc (main_prepare_mem c pdfs doc hmem)
    exact hdoc p doc hok

/-- C4 witness: the document processed from `pdfA` under `collabOk` has
two images, two texts and two embeddings. -/
theorem claim4_witness :
    docAOk.images.length = docAOk.texts.length ∧
    docAOk.embeddings.length = docAOk.images.length :=
  (claim4_length_invariant collabOk [pdfA]
    (by intro url imgs txts hh
        simp [collabOk] at hh
        obtain ⟨h1, h2⟩ := hh
        subst h1
        subst h2
        rfl)
    (by intro imgs vs hh
        simp [collabOk] at hh
        subst hh
        rfl)).1 docAOk (by decide)

/-- C7: In the sample-search step, if the embedding collaborator returns a
vector list with head `v` for the fixed demonstration query, then the
driver both issues the embedding call on exactly that query and invokes
`search` exactly once, with the original query string and exactly `v`. -/
theorem claim7_sample_search_contract (c : Collab Img Txt Vec VDoc Res)
    (v : Vec) (vs : List Vec)
    (h : c.generateTextEmbeddings [sampleQuery] = Except.ok (v :: vs)) :
    Event.callGenerateTextEmbeddings [sampleQuery] ∈ (perform_sample_search c).2 ∧
    ((perform_sample_search c).2).filter (fun ev => Event.isSearchCall ev) =
      [Event.callSearch sampleQuery v] :=
  perform_sample_search_invokes c v vs h

/-- C7 witness: under `collabOk` the query embedding is `7` and the unique
search call carries the query string and `7`. -/
theorem claim7_witness :
    Event.callGenerateTextEmbeddings [sampleQuery] ∈
      (perform_sample_search collabOk).2 ∧
    ((perform_sample_search collabOk).2).filter (fun ev => Event.isSearchCall ev) =
      [Event.callSearch sampleQuery 7] :=
  claim7_sample_search_contract collabOk 7 [] rfl

/-- C9: The driver builds each processed document from a copy of its
descriptor: a successful `process_single_pdf` result carries the
descriptor title and url unchanged, and every document accumulated by
the driver loop carries the title and url of some configured descriptor
unchanged (the configured list itself, being a pure value here, is
untouched). -/
theorem claim9_descriptors_not_mutated (c : Collab Img Txt Vec VDoc Res)
    (pdfs : List Pdf) :
    (∀ (pdf : Pdf) (doc : ProcessedPdf Img Txt Vec),
       (process_single_pdf c pdf).1 = Except.ok doc →
       doc.title = pdf.title ∧ doc.url = pdf.url) ∧
    ∀ doc ∈ (processPdfs c pdfs).1, ∃ pdf ∈ pdfs,
      doc.title = pdf.title ∧ doc.url = pdf.url := by
  constructor
  · intro pdf doc hok
    obtain ⟨imgs, txts, embs, _, _, rfl⟩ := process_single_pdf_ok_shape c pdf doc hok
    exact ⟨rfl, rfl⟩
  · intro doc hmem
    obtain ⟨p, hp, hok⟩ := processPdfs_mem c pdfs doc hmem
    obtain ⟨imgs, txts, embs, _, _, rfl⟩ := process_single_pdf_ok_shape c p doc hok
    exact ⟨p, hp, rfl, rfl⟩

/-- C9 witness: the document processed from `pdfA` under `collabOk`
carries the title and url of `pdfA`. -/
theorem claim9_witness : docAOk.title = pdfA.title ∧ docAOk.url = pdfA.url :=
  (claim9_descriptors_not_mutated collabOk [pdfA]).1 pdfA docAOk rfl

/-- C10: Under the precondition that the embedding collaborator returns
one vector per input element, the vector list returned for the one-element
query list is non-empty, the subscript `[0]` is in range, and the driver
goes on to call `search` (the out-of-range branch is unreachable). -/
theorem claim10_query_subscript_safe (c : Collab Img Txt Vec VDoc Res)
    (hcontract : ∀ txts vs, c.generateTextEmbeddings txts = Except.ok vs →
      vs.length = txts.length) :
    ∀ vs, c.generateTextEmbeddings [sampleQuery] = Except.ok vs →
      vs ≠ [] ∧ ∃ v, vs.head? = some v ∧
        Event.callSearch sampleQuery v ∈ (perform_sample_search c).2 := by
  intro vs hok
  have hlen : vs.length = 1 := hcontract [sampleQuery] vs hok
  obtain ⟨v, hv⟩ : ∃ v, vs = [v] := List.length_eq_one.mp hlen
  subst hv
  refine ⟨by simp, v, rfl, ?_⟩
  have hf := (perform_sample_search_invokes c v [] hok).2
  have hm : Event.callSearch sampleQuery v ∈
      ((perform_sample_search c).2).filter (fun ev => Event.isSearchCall ev) := by
    rw [hf]
    simp
  exact List.mem_of_mem_filter hm

/-- C10 witness: under `collabOk` the query-embedding list is `[7]`, its
head is defined, and the search call with embedding `7` is in the trace. -/
theorem claim10_witness :
    ([7] : List Nat) ≠ [] ∧ ∃ v, ([7] : List Nat).head? = some v ∧
      Event.callSearch sampleQuery v ∈ (perform_sample_search collabOk).2 :=
  claim10_query_subscript_safe collabOk
    (by intro txts vs hh
        simp [collabOk] at hh
        subst hh
        simp) [7] rfl

/-- C2: If after the driver loop no document was successfully processed
(the precheck and deployment having succeeded), the process exits with
code 1 and the whole run makes no `prepare_document`, `index_documents`
or `search` call. -/
theorem claim2_empty_success_set_exits (c : Collab Img Txt Vec VDoc Res)
    (pdfs : List Pdf) (hpop : c.verifyPopplerSetup = true)
    (hdep : c.deploy = Except.ok ()) (hempty : (processPdfs c pdfs).1 = []) :
    (main c pdfs).1 = Outcome.exited 1 ∧
    ∀ ev ∈ (main c pdfs).2, ev.isIndexingOrSearchCall = false := by
  constructor
  · simp [main, hpop, hdep, hempty]
  · intro ev hev
    simp [main, hpop, hdep, hempty] at hev
    repeat
      first
      | exact processPdfs_trace_calls c pdfs ev hev
      | (subst hev; rfl)
      | rcases hev with hev | hev

/-- C2 witness: under `collabFailB` with the single failing descriptor
`pdfB`, the processed set is empty and the run exits with code 1. -/
theorem claim2_witness : (main collabFailB [pdfB]).1 = Outcome.exited 1 :=
  (claim2_empty_success_set_exits collabFailB [pdfB] rfl rfl rfl).1

/-- C3: If preparation or submission raises for some document in the
indexing phase, that failure is logged and re-raised, and no document
after it in loop order is submitted: the phase result is the raised
error, the trace is exactly the banner plus the traces of the successful
prefix and of the failing document, and every document handed to
`prepare_document` is in the prefix or is the failing one. -/
theorem claim3_indexing_failure_aborts (c : Collab Img Txt Vec VDoc Res)
    (pre : List (ProcessedPdf Img Txt Vec)) (d : ProcessedPdf Img Txt Vec)
    (post : List (ProcessedPdf Img Txt Vec)) (e : String)
    (hpre : ∀ x ∈ pre, (indexStep c x).1 = Except.ok ())
    (hd : (indexStep c d).1 = Except.error e) :
    (index_documents c (pre ++ d :: post)).1 = Except.error e ∧
    Event.logError ("Error indexing PDF " ++ d.title ++ ": " ++ e) ∈
      (index_documents c (pre ++ d :: post)).2 ∧
    (index_documents c (pre ++ d :: post)).2 =
      Event.logInfo "Indexing documents in Vespa..." ::
        ((pre.map (fun x => (indexStep c x).2)).flatten ++ (indexStep c d).2) ∧
    ∀ doc : ProcessedPdf Img Txt Vec,
      Event.callPrepareDocument doc ∈ (index_documents c (pre ++ d :: post)).2 →
      doc ∈ pre ∨ doc = d := by
  have hloop := indexLoop_first_error c pre d post e hpre hd
  refine ⟨?_, ?_, ?_, ?_⟩
  · simp [index_documents, hloop]
  · have hm := indexStep_error_log c d e hd
    simp only [index_documents, hloop]
    exact List.mem_cons_of_mem _ (List.mem_append_right _ hm)
  · simp [index_documents, hloop]
  · intro doc hmem
    simp only [index_documents, hloop, List.mem_cons, List.mem_append] at hmem
    rcases hmem with hmem | hmem | hmem
    · exact absurd hmem (by simp)
    · rcases List.mem_flatten.mp hmem with ⟨t, ht, hdoc⟩
      rcases List.mem_map.mp ht with ⟨x, hx, rfl⟩
      have hdx := indexStep_prepare_mem c x doc hdoc
      rw [hdx]
      exact Or.inl hx
    · exact Or.inr (indexStep_prepare_mem c d doc hmem)

/-- C3 witness: with preparation failing on `docB3`, indexing
`[docA3, docB3, docC3]` raises after the successful prefix and logs the
failure for `docB3`. -/
theorem claim3_witness :
    (index_documents collabPrepFailB ([docA3] ++ docB3 :: [docC3])).1 =
      Except.error "bad shape" ∧
    Event.logError ("Error indexing PDF " ++ docB3.title ++ ": " ++ "bad shape") ∈
      (index_documents collabPrepFailB ([docA3] ++ docB3 :: [docC3])).2 :=
  ⟨(claim3_indexing_failure_aborts collabPrepFailB [docA3] docB3 [docC3] "bad shape"
      (by intro x hx
          simp at hx
          subst hx
          rfl) rfl).1,
   (claim3_indexing_failure_aborts collabPrepFailB [docA3] docB3 [docC3] "bad shape"
      (by intro x hx
          simp at hx
          subst hx
          rfl) rfl).2.1⟩

/-- C5 counterexample: under `collabIdxFail` one document is successfully
processed, yet the run does not exit with code 0 — the indexing failure
propagates out of `main` as an uncaught exception. -/
theorem claim5_counterexample :
    (processPdfs collabIdxFail [pdfA]).1.length = 1 ∧
    (main collabIdxFail [pdfA]).1 ≠ Outcome.exited 0 ∧
    (main collabIdxFail [pdfA]).1 = Outcome.raised "index down" := by
  decide

/-- C5 (amended): the run exits with code 1 exactly when the environment
precheck fails or (after successful deployment) zero documents were
processed; and it exits with code 0 whenever at least one document was
processed and deployment, indexing and the sample search all succeed.  A
failure raised during deployment, indexing or search instead propagates
out of `main` as an uncaught exception. -/
theorem claim5_exit_codes_amended (c : Collab Img Txt Vec VDoc Res)
    (pdfs : List Pdf) :
    ((main c pdfs).1 = Outcome.exited 1 ↔
      c.verifyPopplerSetup = false ∨
        (c.deploy = Except.ok () ∧ (processPdfs c pdfs).1 = [])) ∧
    (c.verifyPopplerSetup = true → c.deploy = Except.ok () →
      (processPdfs c pdfs).1 ≠ [] →
      (index_documents c (processPdfs c pdfs).1).1 = Except.ok () →
      (perform_sample_search c).1 = Except.ok () →
      (main c pdfs).1 = Outcome.exited 0) := by
  constructor
  · constructor
    · intro h
      unfold main at h
      split at h
      · split at h
        · simp at h
        next u hdep =>
          split at h
          next hempty =>
            exact Or.inr ⟨hdep, by simpa using hempty⟩
          next hne =>
            split at h
            · simp at h
            · split at h
              · simp at h
              · simp at h
      next hpop =>
        exact Or.inl (by simpa using hpop)
    · intro h
      rcases h with hpop | ⟨hdep, hempty⟩
      · simp [main, hpop]
      · rcases Bool.eq_false_or_eq_true c.verifyPopplerSetup with hpop | hpop
        · simp [main, hpop, hdep, hempty]
        · simp [main, hpop]
  · intro hpop hdep hne hidx hs
    simp [main, hpop, hdep, hidx, hs, hne]

/-- C5 witness: the happy path under `collabOk` processes one document and
exits with code 0. -/
theorem claim5_witness : (main collabOk [pdfA]).1 = Outcome.exited 0 :=
  (claim5_exit_codes_amended collabOk [pdfA]).2 rfl rfl (by decide) rfl rfl

/-- C6: Every submission the driver makes to the index collaborator
method `index_documents` is a singleton batch, and a successful indexing
phase makes exactly one submission call per processed document. -/
theorem claim6_individual_submission (c : Collab Img Txt Vec VDoc Res)
    (pdfs : List Pdf) :
    (∀ vds : List VDoc,
       Event.callIndexDocuments vds ∈ (main c pdfs).2 → vds.length = 1) ∧
    ∀ docs : List (ProcessedPdf Img Txt Vec),
      (index_documents c docs).1 = Except.ok () →
      ((index_documents c docs).2).countP
          (fun ev => Event.isIndexDocumentsCall ev) = docs.length := by
  constructor
  · exact fun vds h => main_index_singleton c pdfs vds h
  · intro docs hok
    have hok2 : (indexLoop c docs).1 = Except.ok () := hok
    have hcnt := indexLoop_ok_count c docs hok2
    simp only [index_documents, List.countP_cons, hcnt]
    simp [Event.isIndexDocumentsCall]

/-- C6 witness: successfully indexing the single document `docAOk` makes
exactly one submission call. -/
theorem claim6_witness :
    ((index_documents collabOk [docAOk]).2).countP
      (fun ev => Event.isIndexDocumentsCall ev) = 1 :=
  (claim6_individual_submission collabOk []).2 [docAOk] rfl

/-- C8: If the Poppler environment precheck fails, the process exits with
code 1 before any work: the trace contains no handler initialization, no
deployment and no collaborator call of any kind, only log lines. -/
theorem claim8_precheck_failure_exits_first (c : Collab Img Txt Vec VDoc Res)
    (pdfs : List Pdf) (h : c.verifyPopplerSetup = false) :
    (main c pdfs).1 = Outcome.exited 1 ∧
    ∀ ev ∈ (main c pdfs).2, ev.isCollabCall = false := by
  constructor
  · simp [main, h]
  · intro ev hev
    simp [main, h] at hev
    rcases hev with rfl | rfl | rfl <;> rfl

/-- C8 witness: with the precheck failing, the run exits with code 1. -/
theorem claim8_witness : (main collabNoPoppler [pdfA]).1 = Outcome.exited 1 :=
  (claim8_precheck_failure_exits_first collabNoPoppler [pdfA] rfl).1

end LegalBot
